import Mathlib

/-!
Verification of the process-lifecycle behaviour of `src/server/main.py`
(ImmigrantJobFinder backend bootstrap).

The file shallowly embeds the `lifespan` async context manager (startup and
shutdown sections), the module-level `allowed_origins` computation, and the
three static route handlers (`root`, `health_check`, `cors_test`).  Effects
performed against the outside world (constructing the Mongo client, the ping
command, creating and cancelling the heartbeat task, serving requests) are
recorded in an explicit event trace; the outcomes of the external calls that
can fail (the ping, the client close) are supplied as oracle parameters.
-/

namespace ImmigrantJobFinder

/-- Environment variables read by `main.py`.  A field is `none` when the
variable is unset, in which case `os.getenv` returns Python `None`. -/
structure Env where
  mongodb_uri : Option String
  allowed_origins_env : Option String
  port : Option String
deriving Repr, DecidableEq

/-- Python truthiness of an `os.getenv` result: `None` and the empty string
are falsy, every other string is truthy.  Used by `if not mongodb_uri` and
`if allowed_origins_env` in the source. -/
def strTruthy : Option String → Bool
  | none => false
  | some s => s != ""

/-- Externally visible effects performed by the lifespan code, in the order
the source performs them. -/
inductive Ev where
  /-- the `os.getenv("MONGODB_URI")` read at the top of the try block -/
  | readConfig
  /-- `app.mongodb_client = AsyncIOMotorClient(mongodb_uri)` -/
  | connect
  /-- `await app.mongodb_client.admin.command('ping')` is issued -/
  | ping
  /-- `app.mongodb = app.mongodb_client.immigrant_job_finder` -/
  | setDb
  /-- `app.heartbeat_task = asyncio.create_task(manager.start_heartbeat_monitor())` -/
  | startTask
  /-- the `yield`: the application is up and serves requests -/
  | serve
  /-- `app.mongodb_client.close()` is called -/
  | closeClient
  /-- `app.heartbeat_task.cancel()` is called -/
  | cancelTask
deriving Repr, DecidableEq

/-- Attributes the lifespan code sets on the FastAPI `app` object.  A field is
`none` exactly when the attribute was never assigned, i.e. when `hasattr`
on it is false. -/
structure AppState where
  mongodb_client : Option Unit
  mongodb : Option Unit
  heartbeat_task : Option Unit
deriving Repr, DecidableEq

/-- The app state before the lifespan runs: no attribute assigned. -/
def AppState.empty : AppState := ⟨none, none, none⟩

/-- Exceptions the startup section can raise: the explicit
`ValueError("MONGODB_URI environment variable is required")`, or the failure
of the `ping` admin command.  The `except` block logs and re-raises either. -/
inductive StartErr where
  | valueError
  | pingError
deriving Repr, DecidableEq

/-- Outcome of the external calls made during startup: whether the MongoDB
`ping` admin command succeeds.  Constructing `AsyncIOMotorClient` itself does
not contact the server and does not fail. -/
structure StartupWorld where
  pingOk : Bool
deriving Repr, DecidableEq

/-- The startup section of `lifespan` (the `try` block together with the
re-raising `except` block).  Returns the app state as left behind by the
block, the trace of effects, and the exception that propagated (`none` on
success).  The source order is: read `MONGODB_URI`; raise `ValueError` if it
is falsy; construct the client; await the ping (abort on failure); assign
`app.mongodb`; create the heartbeat task. -/
def tryStartup (env : Env) (w : StartupWorld) :
    AppState × List Ev × Option StartErr :=
  if strTruthy env.mongodb_uri then
    if w.pingOk then
      (⟨some (), some (), some ()⟩,
        [Ev.readConfig, Ev.connect, Ev.ping, Ev.setDb, Ev.startTask], none)
    else
      (⟨some (), none, none⟩,
        [Ev.readConfig, Ev.connect, Ev.ping], some StartErr.pingError)
  else
    (AppState.empty, [Ev.readConfig], some StartErr.valueError)

/-- Model of `asyncio.Task.cancel()` as documented by the Python standard
library: it requests cancellation and returns `True` when the task is not yet
done; on an already-completed task it is a no-op returning `False`.  It never
raises.  The second component is the exception the call raises (always
`none`). -/
def taskCancel (done : Bool) : Bool × Option Unit := (!done, none)

/-- Outcome of the external calls made during shutdown: whether
`mongodb_client.close()` raises, and whether the heartbeat task had already
completed by the time shutdown runs. -/
structure ShutdownWorld where
  closeRaises : Bool
  taskDone : Bool
deriving Repr, DecidableEq

/-- The shutdown section of `lifespan` (the code after the `yield`).  Both
steps are guarded by `hasattr` (and, for the task, truthiness — a task object
is always truthy, so `heartbeat_task.isSome` captures the whole guard).  The
section has no `try`/`except`: an exception raised by `close()` propagates
out of the generator and the cancel statement is never reached.  Returns the
trace of the section and whether an exception escaped it. -/
def shutdownRun (st : AppState) (w : ShutdownWorld) : List Ev × Bool :=
  match st.mongodb_client with
  | some _ =>
      if w.closeRaises then
        ([Ev.closeClient], true)
      else
        match st.heartbeat_task with
        | some _ => ([Ev.closeClient, Ev.cancelTask], (taskCancel w.taskDone).2.isSome)
        | none => ([Ev.closeClient], false)
  | none =>
      match st.heartbeat_task with
      | some _ => ([Ev.cancelTask], (taskCancel w.taskDone).2.isSome)
      | none => ([], false)

/-- One full run of the lifespan context manager under starlette.  When the
startup section raises before the `yield`, `contextlib.asynccontextmanager`
propagates the exception from `__aenter__`, the generator is already
finished, and the code after the `yield` never executes: the app never
serves and the shutdown section never runs.  When startup succeeds, the app
serves and then the shutdown section runs.  Returns the full trace and the
startup exception that propagated (`none` when the app reached serving). -/
def lifespanRun (env : Env) (sw : StartupWorld) (dw : ShutdownWorld) :
    List Ev × Option StartErr :=
  match tryStartup env sw with
  | (st, evs, none) => (evs ++ [Ev.serve] ++ (shutdownRun st dw).1, none)
  | (_, evs, some e) => (evs, some e)

/-- The default CORS origins of `main.py`, used when `ALLOWED_ORIGINS` is
unset or empty. -/
def default_origins : List String :=
  ["http://localhost:3000",
   "http://127.0.0.1:3000",
   "https://bridgeai.club",
   "https://www.bridgeai.club",
   "https://bridge-ai-gamma.vercel.app"]

/-- Python `str.split` with an explicit one-character separator, over the
character list of the string: it splits at every occurrence of the separator
and keeps empty fields, so splitting `a,b` gives two fields, splitting a lone
comma gives two empty fields, and splitting the empty string gives one empty
field. -/
def pySplitChars (sep : Char) : List Char → List (List Char)
  | [] => [[]]
  | c :: cs =>
      if c = sep then [] :: pySplitChars sep cs
      else
        match pySplitChars sep cs with
        | [] => [[c]]
        | w :: ws => (c :: w) :: ws

/-- Python `s.split(sep)` for a one-character separator, producing strings. -/
def pySplit (s : String) (sep : Char) : List String :=
  (pySplitChars sep s.data).map List.asString

/-- The module-level `allowed_origins` computation: read `ALLOWED_ORIGINS`;
if it is truthy split it on commas (`allowed_origins_env.split(",")`),
otherwise use the fixed default list. -/
def allowed_origins (env : Env) : List String :=
  match env.allowed_origins_env with
  | some s => if s != "" then pySplit s ',' else default_origins
  | none => default_origins

/-- An HTTP response: status code and a JSON object body rendered as a list
of string key/value pairs, in source order. -/
structure Response where
  status : Nat
  body : List (String × String)
deriving Repr, DecidableEq

/-- The `root` handler: FastAPI returns the dict with the default status
200. -/
def root_resp : Response :=
  ⟨200, [("message", "Welcome to ImmigrantJobFinder API")]⟩

/-- The `health_check` handler for `GET /health`. -/
def health_check : Response := ⟨200, [("status", "healthy")]⟩

/-- The `cors_test` handler for `GET /cors-test`.  The parameter is the
current wall-clock time (as an ISO string) at the moment of the request; the
source never reads the clock and returns the fixed literal timestamp
`"2024-01-01T00:00:00Z"`, so the parameter is ignored. -/
def cors_test (_now : String) : Response :=
  ⟨200, [("message", "CORS is working"), ("timestamp", "2024-01-01T00:00:00Z")]⟩

/-- Dispatch of the three static routes of `main.py`, available only once
startup has completed (no request is served before the lifespan `yield`).
Feature routers live outside this file and are not modelled. -/
def handle (env : Env) (sw : StartupWorld) (now : String) (path : String) :
    Option Response :=
  if (tryStartup env sw).2.2 = none then
    match path with
    | "/" => some root_resp
    | "/health" => some health_check
    | "/cors-test" => some (cors_test now)
    | _ => none
  else none

/-- C1 counterexample: with `MONGODB_URI` set and the ping failing, the run
reaches no serving state, but the already-constructed client is closed zero
times — not exactly once as the claim states. -/
theorem c1_ping_fail_counterexample :
    (lifespanRun ⟨some "mongodb://h", none, none⟩ ⟨false⟩ ⟨false, false⟩).2 =
        some StartErr.pingError ∧
    Ev.serve ∉ (lifespanRun ⟨some "mongodb://h", none, none⟩ ⟨false⟩ ⟨false, false⟩).1 ∧
    ¬ ((lifespanRun ⟨some "mongodb://h", none, none⟩ ⟨false⟩ ⟨false, false⟩).1.count
        Ev.closeClient = 1) := by
  decide

/-- C1 (amended): in every run where `MONGODB_URI` is set (truthy) and the
ping fails, startup fails with the ping error, no serving state is reached,
and the already-constructed client is closed zero times — the code never
releases it, release is left to process exit. -/
theorem c1_ping_fail_no_close (env : Env) (dw : ShutdownWorld)
    (huri : strTruthy env.mongodb_uri = true) :
    (lifespanRun env ⟨false⟩ dw).2 = some StartErr.pingError ∧
    Ev.serve ∉ (lifespanRun env ⟨false⟩ dw).1 ∧
    (lifespanRun env ⟨false⟩ dw).1.count Ev.closeClient = 0 := by
  simp [lifespanRun, tryStartup, huri]

/-- C1 witness: the amended theorem applied at a concrete environment. -/
theorem c1_ping_fail_no_close_witness :
    strTruthy (Env.mk (some "mongodb://h") none none).mongodb_uri = true ∧
    ((lifespanRun ⟨some "mongodb://h", none, none⟩ ⟨false⟩ ⟨false, false⟩).2 =
        some StartErr.pingError ∧
      Ev.serve ∉ (lifespanRun ⟨some "mongodb://h", none, none⟩ ⟨false⟩ ⟨false, false⟩).1 ∧
      (lifespanRun ⟨some "mongodb://h", none, none⟩ ⟨false⟩ ⟨false, false⟩).1.count
        Ev.closeClient = 0) :=
  ⟨by decide, c1_ping_fail_no_close ⟨some "mongodb://h", none, none⟩ ⟨false, false⟩ (by decide)⟩

/-- C2 counterexample: after a successful startup, if the database close step
raises, the heartbeat-task cancellation is NOT attempted (there is no
`try`/`except` in the shutdown section) and the exception escapes. -/
theorem c2_close_raises_counterexample :
    Ev.cancelTask ∉
      (shutdownRun (tryStartup ⟨some "mongodb://h", none, none⟩ ⟨true⟩).1 ⟨true, false⟩).1 ∧
    (shutdownRun (tryStartup ⟨some "mongodb://h", none, none⟩ ⟨true⟩).1 ⟨true, false⟩).2 =
      true := by
  decide

/-- C2 (amended): in every shutdown after a successful startup the close step
comes first; when the close does not raise, the trace is exactly close
followed by cancel and no exception escapes; when the close raises, the
exception propagates out of the shutdown section and the cancel step is not
attempted. -/
theorem c2_shutdown_order (env : Env) (sw : StartupWorld) (dw : ShutdownWorld)
    (hok : (tryStartup env sw).2.2 = none) :
    (dw.closeRaises = false →
      (shutdownRun (tryStartup env sw).1 dw).1 = [Ev.closeClient, Ev.cancelTask] ∧
      (shutdownRun (tryStartup env sw).1 dw).2 = false) ∧
    (dw.closeRaises = true →
      (shutdownRun (tryStartup env sw).1 dw).1 = [Ev.closeClient] ∧
      (shutdownRun (tryStartup env sw).1 dw).2 = true) := by
  unfold tryStartup at *
  rcases h1 : strTruthy env.mongodb_uri with _ | _ <;>
    rcases h2 : sw.pingOk with _ | _ <;>
      rcases h3 : dw.closeRaises with _ | _ <;>
        simp [h1, h2, h3] at hok ⊢ <;>
          simp [shutdownRun, taskCancel, h3]

/-- C2 witness: the amended theorem applied after a concrete successful
startup. -/
theorem c2_shutdown_order_witness :
    (tryStartup ⟨some "mongodb://h", none, none⟩ ⟨true⟩).2.2 = none ∧
    (((ShutdownWorld.mk false false).closeRaises = false →
      (shutdownRun (tryStartup ⟨some "mongodb://h", none, none⟩ ⟨true⟩).1
          ⟨false, false⟩).1 = [Ev.closeClient, Ev.cancelTask] ∧
      (shutdownRun (tryStartup ⟨some "mongodb://h", none, none⟩ ⟨true⟩).1
          ⟨false, false⟩).2 = false) ∧
    ((ShutdownWorld.mk false false).closeRaises = true →
      (shutdownRun (tryStartup ⟨some "mongodb://h", none, none⟩ ⟨true⟩).1
          ⟨false, false⟩).1 = [Ev.closeClient] ∧
      (shutdownRun (tryStartup ⟨some "mongodb://h", none, none⟩ ⟨true⟩).1
          ⟨false, false⟩).2 = true)) :=
  ⟨by decide, c2_shutdown_order ⟨some "mongodb://h", none, none⟩ ⟨true⟩ ⟨false, false⟩ (by decide)⟩

/-- C3: when `MONGODB_URI` is unset or empty, startup raises the
configuration `ValueError` and aborts: the trace is exactly the config read —
no client construction, no ping, no heartbeat task, no serving. -/
theorem c3_missing_uri_aborts (env : Env) (sw : StartupWorld) (dw : ShutdownWorld)
    (h : env.mongodb_uri = none ∨ env.mongodb_uri = some "") :
    (lifespanRun env sw dw).2 = some StartErr.valueError ∧
    (lifespanRun env sw dw).1 = [Ev.readConfig] ∧
    Ev.connect ∉ (lifespanRun env sw dw).1 ∧
    Ev.startTask ∉ (lifespanRun env sw dw).1 ∧
    Ev.serve ∉ (lifespanRun env sw dw).1 := by
  have huri : strTruthy env.mongodb_uri = false := by
    rcases h with h | h <;> simp [h, strTruthy]
  simp [lifespanRun, tryStartup, huri]

/-- C3 witness: the theorem applied at the concrete unset-variable
environment. -/
theorem c3_missing_uri_aborts_witness :
    ((Env.mk none none none).mongodb_uri = none ∨
      (Env.mk none none none).mongodb_uri = some "") ∧
    ((lifespanRun ⟨none, none, none⟩ ⟨true⟩ ⟨false, false⟩).2 = some StartErr.valueError ∧
      (lifespanRun ⟨none, none, none⟩ ⟨true⟩ ⟨false, false⟩).1 = [Ev.readConfig] ∧
      Ev.connect ∉ (lifespanRun ⟨none, none, none⟩ ⟨true⟩ ⟨false, false⟩).1 ∧
      Ev.startTask ∉ (lifespanRun ⟨none, none, none⟩ ⟨true⟩ ⟨false, false⟩).1 ∧
      Ev.serve ∉ (lifespanRun ⟨none, none, none⟩ ⟨true⟩ ⟨false, false⟩).1) :=
  ⟨Or.inl rfl, c3_missing_uri_aborts ⟨none, none, none⟩ ⟨true⟩ ⟨false, false⟩ (Or.inl rfl)⟩

/-- C4: the startup trace is always a prefix of the canonical strictly
sequential order read config, connect, ping, set db, start heartbeat task
(so a later step runs only if every earlier one succeeded); on success the
trace is exactly that sequence; and whenever the run serves at all, every
startup step precedes the serve event. -/
theorem c4_startup_order (env : Env) (sw : StartupWorld) (dw : ShutdownWorld) :
    (tryStartup env sw).2.1 <+:
        [Ev.readConfig, Ev.connect, Ev.ping, Ev.setDb, Ev.startTask] ∧
    ((tryStartup env sw).2.2 = none →
      (tryStartup env sw).2.1 =
        [Ev.readConfig, Ev.connect, Ev.ping, Ev.setDb, Ev.startTask]) ∧
    (Ev.serve ∈ (lifespanRun env sw dw).1 →
      (lifespanRun env sw dw).1.take 6 =
        [Ev.readConfig, Ev.connect, Ev.ping, Ev.setDb, Ev.startTask, Ev.serve]) := by
  rcases h1 : strTruthy env.mongodb_uri with _ | _ <;>
    rcases h2 : sw.pingOk with _ | _ <;>
      simp [tryStartup, lifespanRun, h1, h2, List.IsPrefix]

/-- C4 witness: the ordering theorem applied at a concrete successful run. -/
theorem c4_startup_order_witness :
    (tryStartup ⟨some "mongodb://h", none, none⟩ ⟨true⟩).2.2 = none ∧
    (tryStartup ⟨some "mongodb://h", none, none⟩ ⟨true⟩).2.1 =
      [Ev.readConfig, Ev.connect, Ev.ping, Ev.setDb, Ev.startTask] :=
  ⟨by decide,
    (c4_startup_order ⟨some "mongodb://h", none, none⟩ ⟨true⟩ ⟨false, false⟩).2.1 (by decide)⟩

/-- C5: when `ALLOWED_ORIGINS` is unset or empty, the CORS allow-list is
exactly the fixed 5-entry default list of local and production origins. -/
theorem c5_default_allow_list (env : Env)
    (h : env.allowed_origins_env = none ∨ env.allowed_origins_env = some "") :
    allowed_origins env =
      ["http://localhost:3000",
       "http://127.0.0.1:3000",
       "https://bridgeai.club",
       "https://www.bridgeai.club",
       "https://bridge-ai-gamma.vercel.app"] ∧
    (allowed_origins env).length = 5 := by
  rcases h with h | h <;> simp [allowed_origins, h, default_origins]

/-- C5 witness: the theorem applied at the unset-variable environment. -/
theorem c5_default_allow_list_witness :
    ((Env.mk none none none).allowed_origins_env = none ∨
      (Env.mk none none none).allowed_origins_env = some "") ∧
    allowed_origins ⟨none, none, none⟩ =
      ["http://localhost:3000",
       "http://127.0.0.1:3000",
       "https://bridgeai.club",
       "https://www.bridgeai.club",
       "https://bridge-ai-gamma.vercel.app"] :=
  ⟨Or.inl rfl, (c5_default_allow_list ⟨none, none, none⟩ (Or.inl rfl)).1⟩

/-- C6: when `ALLOWED_ORIGINS` holds a non-empty value, the CORS allow-list
is the value split on commas; in particular the value
`"https://a.com,https://b.com"` yields exactly the two origins. -/
theorem c6_split_allow_list (env : Env) (s : String)
    (h1 : env.allowed_origins_env = some s) (h2 : s ≠ "") :
    allowed_origins env = pySplit s ',' ∧
    allowed_origins ⟨none, some "https://a.com,https://b.com", none⟩ =
      ["https://a.com", "https://b.com"] := by
  refine ⟨?_, by decide⟩
  simp [allowed_origins, h1, h2]

/-- C6 witness: the theorem applied at the two-origin value from the spec
scenario. -/
theorem c6_split_allow_list_witness :
    (Env.mk none (some "https://a.com,https://b.com") none).allowed_origins_env =
      some "https://a.com,https://b.com" ∧
    "https://a.com,https://b.com" ≠ "" ∧
    allowed_origins ⟨none, some "https://a.com,https://b.com", none⟩ =
      pySplit "https://a.com,https://b.com" ',' :=
  ⟨rfl, by decide,
    (c6_split_allow_list ⟨none, some "https://a.com,https://b.com", none⟩
      "https://a.com,https://b.com" rfl (by decide)).1⟩

/-- C7: cancelling the heartbeat task when it has already completed raises
nothing and is a no-op (the cancel call returns false); the shutdown trace
does not depend on whether the task already finished, and the cancellation is
attempted whenever the handle is set and the preceding close did not raise. -/
theorem c7_cancel_completed_noop (st : AppState) (dw : ShutdownWorld)
    (htask : st.heartbeat_task = some ()) :
    (taskCancel true).2 = none ∧
    (taskCancel true).1 = false ∧
    (shutdownRun st ⟨dw.closeRaises, true⟩).1 = (shutdownRun st dw).1 ∧
    (dw.closeRaises = false → Ev.cancelTask ∈ (shutdownRun st dw).1) := by
  obtain ⟨c, d, t⟩ := st
  cases htask
  rcases c with _ | _ <;>
    rcases h : dw.closeRaises with _ | _ <;>
      simp [shutdownRun, taskCancel, h]

/-- C7 witness: the theorem applied at a post-startup state whose heartbeat
task has already completed. -/
theorem c7_cancel_completed_noop_witness :
    (taskCancel true).2 = none ∧
    (taskCancel true).1 = false ∧
    Ev.cancelTask ∈ (shutdownRun ⟨some (), some (), some ()⟩ ⟨false, true⟩).1 :=
  ⟨(c7_cancel_completed_noop ⟨some (), some (), some ()⟩ ⟨false, true⟩ rfl).1,
   (c7_cancel_completed_noop ⟨some (), some (), some ()⟩ ⟨false, true⟩ rfl).2.1,
   (c7_cancel_completed_noop ⟨some (), some (), some ()⟩ ⟨false, true⟩ rfl).2.2.2 rfl⟩

/-- C8: after a successful startup, a `GET /health` request returns status
200 with body `{"status": "healthy"}`. -/
theorem c8_health_ok (env : Env) (sw : StartupWorld) (t : String)
    (h : (tryStartup env sw).2.2 = none) :
    handle env sw t "/health" = some ⟨200, [("status", "healthy")]⟩ := by
  simp [handle, h, health_check]

/-- C8 witness: the theorem applied after a concrete successful startup. -/
theorem c8_health_ok_witness :
    (tryStartup ⟨some "mongodb://db", none, none⟩ ⟨true⟩).2.2 = none ∧
    handle ⟨some "mongodb://db", none, none⟩ ⟨true⟩ "t0" "/health" =
      some ⟨200, [("status", "healthy")]⟩ :=
  ⟨by decide, c8_health_ok ⟨some "mongodb://db", none, none⟩ ⟨true⟩ "t0" (by decide)⟩

/-- C9: the `cors_test` handler is a constant function: whatever the current
time is, the response is the same fixed value and its timestamp field is the
literal `"2024-01-01T00:00:00Z"`, not the current time. -/
theorem c9_cors_test_constant (t : String) :
    cors_test t =
      ⟨200, [("message", "CORS is working"), ("timestamp", "2024-01-01T00:00:00Z")]⟩ ∧
    (cors_test t).body.lookup "timestamp" = some "2024-01-01T00:00:00Z" :=
  ⟨rfl, rfl⟩

/-- C9 witness: the theorem applied at a concrete request time different from
the literal. -/
theorem c9_cors_test_constant_witness :
    cors_test "2026-10-12T00:00:00Z" =
      ⟨200, [("message", "CORS is working"), ("timestamp", "2024-01-01T00:00:00Z")]⟩ :=
  (c9_cors_test_constant "2026-10-12T00:00:00Z").1

/-- C10: the shutdown steps are guarded by presence checks on their handles:
on the never-started state the shutdown section performs no operation and
raises nothing, and in general a step whose handle was never set does not
run (so no attribute access on a missing handle occurs). -/
theorem c10_guarded_shutdown (st : AppState) (dw : ShutdownWorld) :
    shutdownRun AppState.empty dw = ([], false) ∧
    (st.mongodb_client = none → Ev.closeClient ∉ (shutdownRun st dw).1) ∧
    (st.heartbeat_task = none → Ev.cancelTask ∉ (shutdownRun st dw).1) := by
  obtain ⟨c, d, t⟩ := st
  rcases c with _ | _ <;>
    rcases t with _ | _ <;>
      rcases h : dw.closeRaises with _ | _ <;>
        simp [shutdownRun, AppState.empty, taskCancel, h]

/-- C10 witness: the theorem applied at the empty state and at a state with
only the heartbeat task set. -/
theorem c10_guarded_shutdown_witness :
    shutdownRun AppState.empty ⟨true, true⟩ = ([], false) ∧
    Ev.closeClient ∉ (shutdownRun ⟨none, none, some ()⟩ ⟨true, true⟩).1 :=
  ⟨(c10_guarded_shutdown ⟨none, none, some ()⟩ ⟨true, true⟩).1,
   (c10_guarded_shutdown ⟨none, none, some ()⟩ ⟨true, true⟩).2.1 rfl⟩

end ImmigrantJobFinder
